import Mathlib

/-!
Verification of the B2B inventory-management business logic.

The development shallowly embeds the two source modules:

* `improved_endpoint.py` — the `add_product` product-creation transactor
  (field validation, warehouse / SKU pre-checks, the three inserts wrapped
  in a storage transaction, and the exception-handler cascade that maps
  failures to HTTP status codes);
* `api_implementation.py` — the low-stock-alert row processing
  (stockout projection, urgency classification, stock-coverage ratio,
  price serialization), the ORDER BY comparator of the alert query, and
  the reorder-suggestion query (selection predicate and suggested
  quantity).

Numbers follow the sources: stocks and thresholds are naturals, monetary
and velocity values are rationals (exact stand-ins for Decimal / REAL),
and the storage layer is a record of relation lists manipulated by pure
functions.  Storage-level insert failures, which the Python code observes
as exceptions, are supplied by an explicit `Oracle` value.
-/

attribute [local semireducible] Rat.add Rat.mul Rat.sub Rat.inv

/-! ## Shared helpers -/

/-- Truncation toward zero, the semantics of Python `int(...)` applied to a
float and of SQLite `CAST(... AS INTEGER)`. -/
def truncToInt (q : ℚ) : ℤ := if 0 ≤ q then ⌊q⌋ else -⌊-q⌋

/-- Truncation toward zero agrees with the floor on non-negative input. -/
theorem truncToInt_of_nonneg (q : ℚ) (h : 0 ≤ q) : truncToInt q = ⌊q⌋ := by
  unfold truncToInt; rw [if_pos h]

/-- Round half to even, the tie-breaking rule of Python `round`. -/
def roundHalfEven (q : ℚ) : ℤ :=
  if q - ⌊q⌋ < 1 / 2 then ⌊q⌋
  else if 1 / 2 < q - ⌊q⌋ then ⌊q⌋ + 1
  else if ⌊q⌋ % 2 = 0 then ⌊q⌋ else ⌊q⌋ + 1

/-- Python `round(q, n)`: round to `n` decimal digits, ties to even. -/
def pyRound (q : ℚ) (n : ℕ) : ℚ := (roundHalfEven (q * 10 ^ n) : ℚ) / 10 ^ n

/-- Python `str.strip()`: drop leading and trailing whitespace. -/
def pyStrip (s : String) : String :=
  String.mk (((s.data.dropWhile Char.isWhitespace).reverse.dropWhile
    Char.isWhitespace).reverse)

/-- Codepoint-lexicographic strict order on character lists (the BINARY
collation SQLite applies to `ORDER BY ... ASC` on TEXT columns). -/
def strLtb : List Char → List Char → Bool
  | [], [] => false
  | [], _ :: _ => true
  | _ :: _, [] => false
  | a :: as, b :: bs =>
    if a.toNat < b.toNat then true
    else if b.toNat < a.toNat then false
    else strLtb as bs

/-- Non-strict codepoint-lexicographic order on strings. -/
def strLeb (a b : String) : Bool := ! strLtb b.data a.data

/-- Insert into a list sorted by a boolean comparator. -/
def insertSorted {α : Type} (le : α → α → Bool) (x : α) : List α → List α
  | [] => [x]
  | y :: ys => if le x y then x :: y :: ys else y :: insertSorted le x ys

/-- Insertion sort by a boolean comparator; models the row ordering a SQL
`ORDER BY` clause imposes on a result set. -/
def sortBy {α : Type} (le : α → α → Bool) : List α → List α
  | [] => []
  | x :: xs => insertSorted le x (sortBy le xs)

/-! ## The product-creation transactor (`improved_endpoint.py`, `add_product`)

The embedding mirrors the source control flow statement by statement:

* the required-field loop and the business-rule checks before
  `sqlite3.connect` raise `ValidationError`, which the outer
  `except ValidationError` handler answers with status 400;
* the warehouse-existence and SKU-uniqueness checks run inside the inner
  `try` after `BEGIN TRANSACTION`; a `ValidationError` raised there is
  caught by the inner blanket `except Exception`, rolled back, and
  re-raised as `DatabaseError`, which the outer handler answers with
  status 500 ("Internal server error") — not 400;
* each of the three INSERT statements may fail at the storage layer; an
  `sqlite3.IntegrityError` whose text names a UNIQUE-constraint violation
  is answered 409, any other `IntegrityError` 500 ("Database integrity
  violation"), any other exception 500 ("Internal server error"); every
  failure path calls `conn.rollback()`, and the pending inserts become
  visible only at `conn.commit()`.
-/

namespace AddProduct

/-- The JSON request body, already coerced the way the source coerces it
(`str`, `int`).  `none` in a required field models a missing key or JSON
null; in `price`, the inner `none` models a value rejected by
`Decimal(str(...))`. -/
structure Req where
  sku : Option String
  name : Option String
  price : Option (Option ℚ)
  warehouse_id : Option Int
  quantity : Option Int
  description : String
  supplier_id : Option String
  low_stock_threshold : Int
  created_by : String

/-- A row of the `products` table, the columns the INSERT provides. -/
structure Product where
  id : String
  sku : String
  name : String
  description : String
  price : ℚ
  supplier_id : Option String
  low_stock_threshold : Int
  created_by : String
  created_at : String
deriving DecidableEq

/-- A row of the `inventory` table. -/
structure InventoryRow where
  id : String
  product_id : String
  warehouse_id : Int
  current_stock : Int
  created_by : String
  created_at : String
deriving DecidableEq

/-- A row of the `inventory_transactions` audit table. -/
structure TxnRow where
  id : String
  product_id : String
  warehouse_id : Int
  transaction_type : String
  quantity : Int
  reason : String
  created_by : String
  created_at : String
deriving DecidableEq

/-- The durable state the endpoint touches: warehouse ids and the three
tables it inserts into. -/
structure Store where
  warehouses : List Int
  products : List Product
  inventory : List InventoryRow
  inventory_transactions : List TxnRow
deriving DecidableEq

/-- How the storage layer answers one INSERT: success, an
`sqlite3.IntegrityError` (whose text does or does not contain
"UNIQUE constraint failed"), or any other database exception. -/
inductive InsertOutcome
  | ok
  | integrityErr (uniqueViolation : Bool)
  | dbErr
deriving DecidableEq

/-- The storage-layer outcome of each of the three INSERT statements of one
request. -/
structure Oracle where
  insertProduct : InsertOutcome
  insertInventory : InsertOutcome
  insertTransaction : InsertOutcome
deriving DecidableEq

/-- The oracle of a run in which the storage layer accepts every insert. -/
def allOk : Oracle := ⟨.ok, .ok, .ok⟩

/-- The first INSERT failure the run encounters, if any. -/
def firstFail (o : Oracle) : Option InsertOutcome :=
  if o.insertProduct ≠ .ok then some o.insertProduct
  else if o.insertInventory ≠ .ok then some o.insertInventory
  else if o.insertTransaction ≠ .ok then some o.insertTransaction
  else none

/-- The HTTP answer of one `add_product` call. -/
inductive AddResult
  | created (product_id : String)
  | badRequest (msg : String)
  | conflict (msg : String)
  | serverError (msg : String)
deriving DecidableEq

/-- HTTP status code of an answer. -/
def statusOf : AddResult → ℕ
  | .created _ => 201
  | .badRequest _ => 400
  | .conflict _ => 409
  | .serverError _ => 500

/-- The `products` row the INSERT writes. -/
def mkProduct (req : Req) (pid now : String) : Product :=
  { id := pid
    sku := pyStrip (req.sku.getD "")
    name := pyStrip (req.name.getD "")
    description := req.description
    price := (req.price.getD none).getD 0
    supplier_id := req.supplier_id
    low_stock_threshold := req.low_stock_threshold
    created_by := req.created_by
    created_at := now }

/-- The `inventory` row the INSERT writes. -/
def mkInventoryRow (req : Req) (pid iid now : String) : InventoryRow :=
  { id := iid
    product_id := pid
    warehouse_id := req.warehouse_id.getD 0
    current_stock := req.quantity.getD 0
    created_by := req.created_by
    created_at := now }

/-- The `inventory_transactions` audit row the INSERT writes. -/
def mkTxnRow (req : Req) (pid tid now : String) : TxnRow :=
  { id := tid
    product_id := pid
    warehouse_id := req.warehouse_id.getD 0
    transaction_type := "INITIAL_STOCK"
    quantity := req.quantity.getD 0
    reason := "Product creation"
    created_by := req.created_by
    created_at := now }

/-- The store after `conn.commit()`: exactly the three pending rows become
visible. -/
def commitState (req : Req) (st : Store) (pid iid tid now : String) : Store :=
  { st with
    products := st.products ++ [mkProduct req pid now]
    inventory := st.inventory ++ [mkInventoryRow req pid iid now]
    inventory_transactions :=
      st.inventory_transactions ++ [mkTxnRow req pid tid now] }

/-- The exception-handler cascade of the inner `try` for a failed INSERT:
`sqlite3.IntegrityError` with "UNIQUE constraint failed" in its text is
answered 409 after rollback, any other `IntegrityError` 500, any other
exception is re-raised as `DatabaseError` and answered 500. -/
def failureResult (e : InsertOutcome) (sku : String) (st : Store) :
    AddResult × Store :=
  match e with
  | .integrityErr true =>
      (.conflict ("Product with SKU " ++ sku ++ " already exists"), st)
  | .integrityErr false => (.serverError "Database integrity violation", st)
  | _ => (.serverError "Internal server error", st)

/-- The trimmed SKU the endpoint works with. -/
def skuT (req : Req) : String := pyStrip (req.sku.getD "")

/-- The exception a run can raise before the first INSERT: a
`ValidationError` caught by the outer handler (status 400), or the
`DatabaseError` that the inner blanket `except Exception` turns an
in-transaction `ValidationError` into (status 500). -/
inductive PreFail
  | validation (msg : String)
  | database (msg : String)
deriving DecidableEq

/-- Status mapping of the outer exception handlers. -/
def PreFail.toResult : PreFail → AddResult
  | .validation m => .badRequest m
  | .database m => .serverError m

/-- Everything `add_product` decides before the first INSERT, in source
order: the required-field loop, the business-rule checks, the
`Decimal` price handling, then — already inside the transaction — the
warehouse-existence and duplicate-SKU pre-checks.  `some f` means the run
stops by raising `f` and the store is untouched; `none` means the run
reaches the INSERT statements.  The two in-transaction checks raise
`ValidationError` but surface as `DatabaseError` (status 500, message
"Internal server error"), because the inner blanket `except Exception`
catches them, rolls back, and re-raises `DatabaseError`. -/
def preCheck (req : Req) (st : Store) : Option PreFail :=
  if req.sku = none then some (.validation "Missing required field: sku")
  else if req.name = none then
    some (.validation "Missing required field: name")
  else if req.price = none then
    some (.validation "Missing required field: price")
  else if req.warehouse_id = none then
    some (.validation "Missing required field: warehouse_id")
  else if req.quantity = none then
    some (.validation "Missing required field: quantity")
  else if skuT req = "" then some (.validation "SKU cannot be empty")
  else if pyStrip (req.name.getD "") = "" then
    some (.validation "Product name cannot be empty")
  else if req.quantity.getD 0 < 0 then
    some (.validation "Quantity cannot be negative")
  else if req.price.getD none = none then
    some (.validation "Invalid price format")
  else if (req.price.getD none).getD 0 < 0 then
    some (.validation "Price cannot be negative")
  else if req.warehouse_id.getD 0 ∉ st.warehouses then
    some (.database "Internal server error")
  else if ∃ p ∈ st.products, p.sku = skuT req then
    some (.database "Internal server error")
  else none

/-- The three INSERT statements and the commit, with the handler cascade
for the first storage failure. -/
def insertPhase (req : Req) (st : Store) (o : Oracle)
    (pid iid tid now : String) : AddResult × Store :=
  if o.insertProduct ≠ .ok then failureResult o.insertProduct (skuT req) st
  else if o.insertInventory ≠ .ok then
    failureResult o.insertInventory (skuT req) st
  else if o.insertTransaction ≠ .ok then
    failureResult o.insertTransaction (skuT req) st
  else (.created pid, commitState req st pid iid tid now)

/-- The `add_product` endpoint, translated check by check from the source.
`pid`, `iid`, `tid` stand for the three `uuid.uuid4()` results and `now`
for `datetime.utcnow().isoformat()`. -/
def add_product (req : Req) (st : Store) (o : Oracle)
    (pid iid tid now : String) : AddResult × Store :=
  match preCheck req st with
  | some f => (f.toResult, st)
  | none => insertPhase req st o pid iid tid now

/-- Every failure answer leaves the store untouched and is not a 201. -/
theorem failureResult_spec (e : InsertOutcome) (sku : String) (st : Store) :
    statusOf (failureResult e sku st).1 ≠ 201 ∧ (failureResult e sku st).2 = st := by
  cases e with
  | ok => exact ⟨by simp [failureResult, statusOf], rfl⟩
  | integrityErr u =>
      cases u <;> exact ⟨by simp [failureResult, statusOf], rfl⟩
  | dbErr => exact ⟨by simp [failureResult, statusOf], rfl⟩

/-- A raised pre-check exception maps to 400 or 500, never to 201. -/
theorem preFail_not_created (f : PreFail) : statusOf f.toResult ≠ 201 := by
  cases f <;> simp [PreFail.toResult, statusOf]

/-- C1: every `add_product` call is all-or-nothing.  Either it answers 201
and the store grows by exactly the product row, the inventory row (whose
`product_id` references that product) and the `INITIAL_STOCK` audit row, or
it answers a non-201 status and the store is exactly the original one — no
run leaves a product row without its inventory row or vice versa. -/
theorem add_product_atomic (req : Req) (st : Store) (o : Oracle)
    (pid iid tid now : String) :
    ((add_product req st o pid iid tid now).1 = AddResult.created pid ∧
      (add_product req st o pid iid tid now).2.products
        = st.products ++ [mkProduct req pid now] ∧
      (add_product req st o pid iid tid now).2.inventory
        = st.inventory ++ [mkInventoryRow req pid iid now] ∧
      (add_product req st o pid iid tid now).2.inventory_transactions
        = st.inventory_transactions ++ [mkTxnRow req pid tid now] ∧
      (add_product req st o pid iid tid now).2.warehouses = st.warehouses ∧
      (mkProduct req pid now).id = pid ∧
      (mkInventoryRow req pid iid now).product_id = pid ∧
      (mkTxnRow req pid tid now).product_id = pid ∧
      (mkTxnRow req pid tid now).transaction_type = "INITIAL_STOCK") ∨
    (statusOf (add_product req st o pid iid tid now).1 ≠ 201 ∧
      (add_product req st o pid iid tid now).2 = st) := by
  rcases h : preCheck req st with _ | r
  · have he : add_product req st o pid iid tid now
        = insertPhase req st o pid iid tid now := by
      unfold add_product; rw [h]
    rw [he]
    unfold insertPhase
    split_ifs
    · exact Or.inr (failureResult_spec _ _ _)
    · exact Or.inr (failureResult_spec _ _ _)
    · exact Or.inr (failureResult_spec _ _ _)
    · exact Or.inl ⟨rfl, rfl, rfl, rfl, rfl, rfl, rfl, rfl, rfl⟩
  · have he : add_product req st o pid iid tid now = (r.toResult, st) := by
      unfold add_product; rw [h]
    rw [he]
    exact Or.inr ⟨preFail_not_created r, rfl⟩

/-- The first INSERT failure is never the success marker. -/
theorem firstFail_ne_ok (o : Oracle) (e : InsertOutcome)
    (h : firstFail o = some e) : e ≠ InsertOutcome.ok := by
  unfold firstFail at h
  split_ifs at h <;> (injection h with h2; subst h2; assumption)

/-- When some INSERT fails, the insert phase stops with the handler answer
for the first failure. -/
theorem insertPhase_fail (req : Req) (st : Store) (o : Oracle)
    (pid iid tid now : String) (e : InsertOutcome)
    (h : firstFail o = some e) :
    insertPhase req st o pid iid tid now = failureResult e (skuT req) st := by
  unfold firstFail at h
  unfold insertPhase
  split_ifs at h ⊢ <;> simp_all

/-- Status code of a failed INSERT: 409 exactly for the UNIQUE-constraint
`IntegrityError`, 500 for every other storage failure. -/
theorem failureResult_status (e : InsertOutcome) (sku : String) (st : Store)
    (he : e ≠ InsertOutcome.ok) :
    statusOf (failureResult e sku st).1 =
      (if e = .integrityErr true then 409 else 500) := by
  rcases e with _ | b | _
  · exact absurd rfl he
  · cases b <;> rfl
  · rfl

/-- C2: when a request that passes every pre-check (witnessed by the same
request succeeding against a storage layer that accepts every insert) runs
against a storage layer that rejects an insert, the endpoint answers 409
exactly when the first failure is an `IntegrityError` naming a UNIQUE
constraint — the concurrent-SKU race — and the generic 500 for every other
storage failure; the store is left untouched either way. -/
theorem add_product_race_conflict (req : Req) (st : Store) (o : Oracle)
    (pid iid tid now : String)
    (hOK : (add_product req st allOk pid iid tid now).1 = AddResult.created pid)
    (hf : firstFail o ≠ none) :
    (add_product req st o pid iid tid now).2 = st ∧
    statusOf (add_product req st o pid iid tid now).1 =
      (if firstFail o = some (.integrityErr true) then 409 else 500) := by
  rcases h : preCheck req st with _ | f
  · have he : add_product req st o pid iid tid now
        = insertPhase req st o pid iid tid now := by
      unfold add_product; rw [h]
    rcases hf2 : firstFail o with _ | e
    · exact absurd hf2 hf
    · rw [he, insertPhase_fail req st o pid iid tid now e hf2]
      constructor
      · exact (failureResult_spec e (skuT req) st).2
      · simp only [Option.some.injEq]
        exact failureResult_status e (skuT req) st (firstFail_ne_ok o e hf2)
  · exfalso
    have he : (add_product req st allOk pid iid tid now).1 = f.toResult := by
      unfold add_product; rw [h]
    rw [he] at hOK
    exact preFail_not_created f (by rw [hOK]; rfl)

/-- A request that passes every validation and pre-check: all required
fields present, non-empty SKU and name, non-negative quantity and price,
existing warehouse 7, fresh SKU. -/
def reqW : Req :=
  { sku := some "SKU-1"
    name := some "Widget"
    price := some (some 5)
    warehouse_id := some 7
    quantity := some 5
    description := ""
    supplier_id := none
    low_stock_threshold := 10
    created_by := "system" }

/-- A store holding warehouse 7 and no products. -/
def stW : Store :=
  { warehouses := [7], products := [], inventory := [], inventory_transactions := [] }

/-- A storage layer that rejects the product INSERT with a UNIQUE-constraint
`IntegrityError` — the concurrent creation of the same SKU. -/
def oracleUniq : Oracle := ⟨.integrityErr true, .ok, .ok⟩

/-- Witness for C2 at a concrete request, store and failing storage layer. -/
theorem add_product_race_conflict_witness :
    (add_product reqW stW allOk "p1" "i1" "t1" "now").1 = AddResult.created "p1"
    ∧ firstFail oracleUniq ≠ none
    ∧ ((add_product reqW stW oracleUniq "p1" "i1" "t1" "now").2 = stW ∧
       statusOf (add_product reqW stW oracleUniq "p1" "i1" "t1" "now").1 =
         (if firstFail oracleUniq = some (.integrityErr true) then 409 else 500)) :=
  ⟨by decide, by decide,
    add_product_race_conflict reqW stW oracleUniq "p1" "i1" "t1" "now"
      (by decide) (by decide)⟩

/-- The same valid request aimed at warehouse 42, which does not exist. -/
def req3 : Req := { reqW with warehouse_id := some 42 }

/-- C3 (divergence witness): a create request whose `warehouse_id`
references no existing warehouse is answered 500 "Internal server error",
not 400 — the `ValidationError` raised inside the transaction is swallowed
by the inner blanket `except Exception` and re-raised as `DatabaseError`.
No rows are written. -/
theorem add_product_unknown_warehouse_returns_500 :
    (add_product req3 stW allOk "p1" "i1" "t1" "now")
      = (AddResult.serverError "Internal server error", stW)
    ∧ statusOf (add_product req3 stW allOk "p1" "i1" "t1" "now").1 = 500
    ∧ (42 : Int) ∉ stW.warehouses := by decide

/-- A product row already holding SKU-1, so the pre-check hits. -/
def prodExisting : Product :=
  { id := "p0"
    sku := "SKU-1"
    name := "Widget"
    description := ""
    price := 5
    supplier_id := none
    low_stock_threshold := 10
    created_by := "system"
    created_at := "t0" }

/-- A store in which SKU-1 is already taken. -/
def st4 : Store := { stW with products := [prodExisting] }

/-- C4 (divergence witness): a create request whose SKU already exists at
pre-check time is answered 500 "Internal server error", not 400 — the same
swallowed-ValidationError path as the warehouse check.  No rows are
written. -/
theorem add_product_duplicate_sku_returns_500 :
    (add_product reqW st4 allOk "p1" "i1" "t1" "now")
      = (AddResult.serverError "Internal server error", st4)
    ∧ statusOf (add_product reqW st4 allOk "p1" "i1" "t1" "now").1 = 500
    ∧ (∃ p ∈ st4.products, p.sku = skuT reqW) := by decide

end AddProduct

/-! ## The low-stock alert endpoint (`api_implementation.py`,
`get_low_stock_alerts`)

The SQL query joins products, inventory, warehouses and (LEFT) suppliers,
computes `avg_daily_sales` and `total_recent_sales` per row, and orders the
result set; the Python loop then derives the stockout projection, the
urgency level, the stock-coverage ratio and the serialized alert from each
row.  `AlertRow` is one fetched row — the SELECT list of the query — and
`buildAlert` is the loop body (lines 139–198 of the source). -/

namespace Alerts

/-- Restock priority classification. -/
inductive Urgency
  | CRITICAL
  | HIGH
  | MEDIUM
  | LOW
deriving DecidableEq

/-- A value the `price` column can hold as the Python code sees it: SQL
NULL (`None`), a TEXT value, or a numeric value.  ℚ stands in for the
numeric affinity exactly. -/
inductive PriceVal
  | null
  | str (s : String)
  | num (q : ℚ)
deriving DecidableEq

/-- Python truthiness of a `price` column value: `None`, the empty string
and numeric zero are falsy, everything else truthy. -/
def pyTruthy : PriceVal → Bool
  | .null => false
  | .str s => s != ""
  | .num q => q != 0

/-- Python `str(...)` of a `price` column value. -/
def pyStr : PriceVal → String
  | .null => "None"
  | .str s => s
  | .num q => toString q

/-- Python truthiness of the `supplier_id` column (`None` and "" falsy). -/
def pyTruthyId : Option String → Bool
  | none => false
  | some s => s != ""

/-- One fetched row of the alert query: the SELECT list, with
`avg_daily_sales` and `total_recent_sales` already computed by the two
COALESCE subqueries. -/
structure AlertRow where
  product_id : String
  sku : String
  product_name : String
  price : PriceVal
  low_stock_threshold : ℕ
  warehouse_id : String
  warehouse_name : String
  current_stock : ℕ
  reserved_stock : ℕ
  available_stock : ℕ
  supplier_id : Option String
  supplier_name : String
  supplier_email : String
  supplier_phone : String
  avg_daily_sales : ℚ
  total_recent_sales : ℕ
deriving DecidableEq

/-- The `stock_info` block of a serialized alert. -/
structure StockInfo where
  current_stock : ℕ
  reserved_stock : ℕ
  available_stock : ℕ
  low_stock_threshold : ℕ
  stock_coverage_ratio : ℚ
deriving DecidableEq

/-- The `sales_analysis` block of a serialized alert. -/
structure SalesAnalysis where
  avg_daily_sales : ℚ
  total_recent_sales : ℕ
  analysis_period_days : ℕ
  days_until_stockout : Option ℤ
deriving DecidableEq

/-- The `supplier` block of a serialized alert. -/
structure SupplierInfo where
  id : String
  name : String
  email : String
  phone : String
deriving DecidableEq

/-- One serialized alert. -/
structure Alert where
  product_id : String
  sku : String
  product_name : String
  price : Option String
  warehouse_id : String
  warehouse_name : String
  stock_info : StockInfo
  sales_analysis : SalesAnalysis
  supplier : Option SupplierInfo
  urgency_level : Urgency
deriving DecidableEq

/-- Lines 144–162 of the source: the stockout projection and urgency
classification.  `int(current_stock / avg_daily_sales)` truncates toward
zero, hence `truncToInt`; the second branch compares the stock against
`low_stock_threshold * 0.5`. -/
def stockoutProjection (current_stock : ℕ) (avg_daily_sales : ℚ)
    (low_stock_threshold : ℕ) : Option ℤ × Urgency :=
  if current_stock = 0 then (some 0, .CRITICAL)
  else if avg_daily_sales ≤ 0 then
    (none,
      if (current_stock : ℚ) > (low_stock_threshold : ℚ) * (1 / 2) then .LOW
      else .MEDIUM)
  else
    (some (truncToInt ((current_stock : ℚ) / avg_daily_sales)),
      if truncToInt ((current_stock : ℚ) / avg_daily_sales) ≤ 7 then .CRITICAL
      else if truncToInt ((current_stock : ℚ) / avg_daily_sales) ≤ 14 then .HIGH
      else if truncToInt ((current_stock : ℚ) / avg_daily_sales) ≤ 30 then
        .MEDIUM
      else .LOW)

/-- The loop body of lines 139–198: derive the projection, the coverage
ratio and the serialized alert from one fetched row. -/
def buildAlert (row : AlertRow) (days_lookback : ℕ) : Alert :=
  { product_id := row.product_id
    sku := row.sku
    product_name := row.product_name
    price := if pyTruthy row.price then some (pyStr row.price) else none
    warehouse_id := row.warehouse_id
    warehouse_name := row.warehouse_name
    stock_info :=
      { current_stock := row.current_stock
        reserved_stock := row.reserved_stock
        available_stock := row.available_stock
        low_stock_threshold := row.low_stock_threshold
        stock_coverage_ratio :=
          pyRound (((row.current_stock : ℚ)
            / (max row.low_stock_threshold 1 : ℕ)) * 100) 1 }
    sales_analysis :=
      { avg_daily_sales := pyRound row.avg_daily_sales 2
        total_recent_sales := row.total_recent_sales
        analysis_period_days := days_lookback
        days_until_stockout :=
          (stockoutProjection row.current_stock row.avg_daily_sales
            row.low_stock_threshold).1 }
    supplier :=
      if pyTruthyId row.supplier_id then
        some
          { id := row.supplier_id.getD ""
            name := row.supplier_name
            email := row.supplier_email
            phone := row.supplier_phone }
      else none
    urgency_level :=
      (stockoutProjection row.current_stock row.avg_daily_sales
        row.low_stock_threshold).2 }

/-- C6: every alert follows the three-case stockout policy in order.  Zero
stock answers days 0 and CRITICAL regardless of the sales signal; a
non-positive sales signal answers null days and LOW when stock exceeds half
the threshold, MEDIUM otherwise; a positive signal answers
floor(stock / velocity) days, CRITICAL up to 7, HIGH up to 14, MEDIUM up to
30, LOW beyond. -/
theorem stockout_projection_policy (row : AlertRow) (d : ℕ) :
    (buildAlert row d).sales_analysis.days_until_stockout =
      (if row.current_stock = 0 then some 0
       else if row.avg_daily_sales ≤ 0 then none
       else some ⌊(row.current_stock : ℚ) / row.avg_daily_sales⌋) ∧
    (buildAlert row d).urgency_level =
      (if row.current_stock = 0 then Urgency.CRITICAL
       else if row.avg_daily_sales ≤ 0 then
         (if (row.current_stock : ℚ) > (row.low_stock_threshold : ℚ) * (1 / 2)
          then Urgency.LOW else Urgency.MEDIUM)
       else if ⌊(row.current_stock : ℚ) / row.avg_daily_sales⌋ ≤ 7 then
         Urgency.CRITICAL
       else if ⌊(row.current_stock : ℚ) / row.avg_daily_sales⌋ ≤ 14 then
         Urgency.HIGH
       else if ⌊(row.current_stock : ℚ) / row.avg_daily_sales⌋ ≤ 30 then
         Urgency.MEDIUM
       else Urgency.LOW) := by
  have hb1 : (buildAlert row d).sales_analysis.days_until_stockout =
      (stockoutProjection row.current_stock row.avg_daily_sales
        row.low_stock_threshold).1 := rfl
  have hb2 : (buildAlert row d).urgency_level =
      (stockoutProjection row.current_stock row.avg_daily_sales
        row.low_stock_threshold).2 := rfl
  rw [hb1, hb2]
  unfold stockoutProjection
  by_cases h1 : row.current_stock = 0
  · rw [if_pos h1, if_pos h1, if_pos h1]; exact ⟨rfl, rfl⟩
  · rw [if_neg h1, if_neg h1, if_neg h1]
    by_cases h2 : row.avg_daily_sales ≤ 0
    · rw [if_pos h2, if_pos h2, if_pos h2]; exact ⟨rfl, rfl⟩
    · rw [if_neg h2, if_neg h2, if_neg h2]
      have hq : (0 : ℚ) ≤ (row.current_stock : ℚ) / row.avg_daily_sales :=
        div_nonneg (Nat.cast_nonneg _) (le_of_lt (not_le.mp h2))
      rw [truncToInt_of_nonneg _ hq]
      exact ⟨rfl, rfl⟩

/-- C9: every alert reports
`stock_coverage_ratio = round((current_stock / max(threshold, 1)) * 100, 1)`,
a value that is always defined — the `max` guards the zero threshold — and
depends only on the stock and the threshold: replacing the sales signal of
the row (the only other input of the urgency classification) leaves it
unchanged. -/
theorem stock_coverage_ratio_formula (row : AlertRow) (d : ℕ) :
    (buildAlert row d).stock_info.stock_coverage_ratio =
      pyRound (((row.current_stock : ℚ)
        / (max row.low_stock_threshold 1 : ℕ)) * 100) 1 ∧
    ∀ q : ℚ,
      (buildAlert { row with avg_daily_sales := q } d).stock_info.stock_coverage_ratio
        = (buildAlert row d).stock_info.stock_coverage_ratio :=
  ⟨rfl, fun _ => rfl⟩

/-- C10: the serialized `price` is null exactly when the stored value is
falsy — SQL NULL, the empty string, or numeric zero — and the string form
of the stored value otherwise; in particular a stored numeric 0 serializes
as null, not as "0". -/
theorem alert_price_truthiness (row : AlertRow) (d : ℕ) :
    (buildAlert row d).price =
      (if pyTruthy row.price then some (pyStr row.price) else none) ∧
    (buildAlert { row with price := PriceVal.num 0 } d).price = none ∧
    (buildAlert { row with price := PriceVal.str "" } d).price = none ∧
    (buildAlert { row with price := PriceVal.null } d).price = none ∧
    pyTruthy (PriceVal.num 0) = false := by
  refine ⟨rfl, ?_, ?_, ?_, ?_⟩ <;> simp [buildAlert, pyTruthy]

/-! ### The ORDER BY clause (lines 126–131)

```
ORDER BY
    CASE WHEN i.current_stock = 0 THEN 0 ELSE 1 END,
    (i.current_stock::FLOAT / NULLIF(p.low_stock_threshold, 0)) ASC,
    p.name ASC
```

Two observations about this clause against the engine the code actually
connects to (`sqlite3`):

1. `expr::FLOAT` is PostgreSQL cast syntax; SQLite rejects it with a
   syntax error, so on the real driver every request dies in
   `cursor.execute` and is answered 500.
2. taking the clause at its evident intent (a float division that is NULL
   when the threshold is zero), SQLite orders NULL *before* every value in
   an ascending key, so zero-threshold rows lead their stock group rather
   than trail it. -/

/-- First ORDER BY key: 0 for zero-stock rows, 1 otherwise. -/
def zeroStockGroup (r : AlertRow) : ℕ := if r.current_stock = 0 then 0 else 1

/-- Second ORDER BY key: the stock divided by `NULLIF(threshold, 0)` —
NULL (`none`) when the threshold is zero. -/
def ratioKey (r : AlertRow) : Option ℚ :=
  if r.low_stock_threshold = 0 then none
  else some ((r.current_stock : ℚ) / (r.low_stock_threshold : ℚ))

/-- Ascending comparison on a nullable key with the SQLite NULL order:
NULL sorts before every value. -/
def optLeNullFirst (x y : Option ℚ) : Bool :=
  match x, y with
  | none, _ => true
  | some _, none => false
  | some a, some b => decide (a ≤ b)

/-- Ascending comparison on a nullable key with NULL pushed to the end,
the placement the spec asks for. -/
def optLeNullLast (x y : Option ℚ) : Bool :=
  match x, y with
  | _, none => true
  | none, some _ => false
  | some a, some b => decide (a ≤ b)

/-- The ORDER BY comparator of the source, with the nullable ratio ordered
the way the sqlite3 engine orders an ascending key. -/
def sqliteOrderLe (a b : AlertRow) : Bool :=
  if zeroStockGroup a = zeroStockGroup b then
    if ratioKey a = ratioKey b then strLeb a.product_name b.product_name
    else optLeNullFirst (ratioKey a) (ratioKey b)
  else decide (zeroStockGroup a ≤ zeroStockGroup b)

/-- The pairwise order the claim describes: zero-stock rows first, then
ascending `stock_coverage_ratio` with zero-threshold (division-by-zero)
rows pushed to the end of their group, ties broken by product name. -/
def claimRatioKey (r : AlertRow) : Option ℚ :=
  if r.low_stock_threshold = 0 then none
  else
    some (pyRound (((r.current_stock : ℚ)
      / (max r.low_stock_threshold 1 : ℕ)) * 100) 1)

/-- The claimed comparator. -/
def claimedLe (a b : AlertRow) : Bool :=
  if zeroStockGroup a = zeroStockGroup b then
    if claimRatioKey a = claimRatioKey b then strLeb a.product_name b.product_name
    else optLeNullLast (claimRatioKey a) (claimRatioKey b)
  else decide (zeroStockGroup a ≤ zeroStockGroup b)

/-- A nonzero-stock row with a zero threshold: its ratio key is NULL. -/
def rowZeroThreshold : AlertRow :=
  { product_id := "pA"
    sku := "A-1"
    product_name := "Alpha"
    price := .null
    low_stock_threshold := 0
    warehouse_id := "w1"
    warehouse_name := "W"
    current_stock := 3
    reserved_stock := 0
    available_stock := 3
    supplier_id := none
    supplier_name := ""
    supplier_email := ""
    supplier_phone := ""
    avg_daily_sales := 0
    total_recent_sales := 0 }

/-- A nonzero-stock row with a positive threshold in the same group. -/
def rowPosThreshold : AlertRow :=
  { rowZeroThreshold with
    product_id := "pB"
    sku := "B-1"
    product_name := "Beta"
    low_stock_threshold := 5
    current_stock := 2
    available_stock := 2 }

/-- C5 (divergence witness): on a two-row result set inside the
nonzero-stock group, the ORDER BY of the source — evaluated with the NULL
ordering of the sqlite3 engine the code connects to — places the
zero-threshold row FIRST in its group, while the claim requires it LAST:
the claimed pairwise order fails on the sorted output. -/
theorem alert_sort_zero_threshold_placement :
    sortBy sqliteOrderLe [rowPosThreshold, rowZeroThreshold]
      = [rowZeroThreshold, rowPosThreshold]
    ∧ claimedLe rowPosThreshold rowZeroThreshold = true
    ∧ claimedLe rowZeroThreshold rowPosThreshold = false
    ∧ rowZeroThreshold.current_stock ≠ 0
    ∧ rowPosThreshold.current_stock ≠ 0
    ∧ rowZeroThreshold.low_stock_threshold = 0
    ∧ ¬ (sortBy sqliteOrderLe [rowPosThreshold, rowZeroThreshold]).Pairwise
        (fun x y => claimedLe x y = true) := by decide

end Alerts

/-! ## The reorder-suggestion endpoint (`api_implementation.py`,
`get_reorder_suggestions`)

The query (lines 252–281) joins products, inventory, warehouses and — via
`LEFT JOIN` filtered by `s.is_active = TRUE` — suppliers, together with a
derived table `avg_sales` holding `AVG(quantity_sold)` per
(product, warehouse) over the last 30 days of `sales_transactions`.
Because SQL `NULL = TRUE` is not true, the WHERE filter on
`s.is_active` turns the supplier LEFT JOIN into an inner join on active
suppliers, which is how it is embedded here.  Note the WHERE clause has no
condition on `w.is_active`, and the derived table averages over
*transactions*, not over sale days. -/

namespace Reorder

/-- A `products` row, the columns this query touches. -/
structure Product where
  id : String
  sku : String
  name : String
  reorder_quantity : Int
  low_stock_threshold : Int
  supplier_id : Option String
  is_active : Bool
  company_id : String
deriving DecidableEq

/-- An `inventory` row. -/
structure InventoryRow where
  product_id : String
  warehouse_id : String
  current_stock : Int
deriving DecidableEq

/-- A `warehouses` row. -/
structure Warehouse where
  id : String
  name : String
  is_active : Bool
deriving DecidableEq

/-- A `suppliers` row. -/
structure Supplier where
  id : String
  name : String
  email : String
  is_active : Bool
deriving DecidableEq

/-- A `sales_transactions` row; `sale_date` is a day number and `today`
stands for `DATE('now')`. -/
structure SaleTxn where
  product_id : String
  warehouse_id : String
  sale_date : Int
  quantity_sold : Int
deriving DecidableEq

/-- The relations the query reads. -/
structure Store where
  products : List Product
  inventory : List InventoryRow
  warehouses : List Warehouse
  suppliers : List Supplier
  sales_transactions : List SaleTxn
deriving DecidableEq

/-- The `avg_sales` derived table at one (product, warehouse) key:
`AVG(quantity_sold)` over the transactions of the trailing 30 days — the
mean over transactions, with no grouping by day — or `none` when the group
is empty and the LEFT JOIN misses. -/
def dailyAvg (st : Store) (today : Int) (pid wid : String) : Option ℚ :=
  let txns := st.sales_transactions.filter fun t =>
    decide (t.product_id = pid ∧ t.warehouse_id = wid ∧ today - 30 ≤ t.sale_date)
  if txns.isEmpty then none
  else some ((txns.map fun t => (t.quantity_sold : ℚ)).sum / (txns.length : ℚ))

/-- One result row of the reorder query: the SELECT list plus the
`daily_avg` column the ORDER BY reads. -/
structure SuggRow where
  id : String
  sku : String
  name : String
  reorder_quantity : Int
  current_stock : Int
  warehouse_id : String
  warehouse_name : String
  supplier_name : String
  supplier_email : String
  suggested_quantity : Int
  daily_avg : Option ℚ
deriving DecidableEq

/-- The FROM/WHERE/CASE part of the query: one row per join combination
passing the WHERE clause, with `suggested_quantity` computed by the CASE —
`CAST(daily_avg * 30 AS INTEGER)` when `daily_avg > 0` (false for NULL),
the fallback `reorder_quantity` otherwise. -/
def reorderRows (st : Store) (companyId : String) (today : Int) :
    List SuggRow :=
  st.products.flatMap fun p =>
    st.inventory.flatMap fun i =>
      st.warehouses.flatMap fun w =>
        st.suppliers.flatMap fun s =>
          if i.product_id = p.id ∧ i.warehouse_id = w.id
              ∧ p.supplier_id = some s.id
              ∧ p.company_id = companyId
              ∧ i.current_stock ≤ p.low_stock_threshold
              ∧ p.is_active = true ∧ s.is_active = true then
            [{ id := p.id
               sku := p.sku
               name := p.name
               reorder_quantity := p.reorder_quantity
               current_stock := i.current_stock
               warehouse_id := i.warehouse_id
               warehouse_name := w.name
               supplier_name := s.name
               supplier_email := s.email
               suggested_quantity :=
                 match dailyAvg st today p.id i.warehouse_id with
                 | some v =>
                     if 0 < v then truncToInt (v * 30) else p.reorder_quantity
                 | none => p.reorder_quantity
               daily_avg := dailyAvg st today p.id i.warehouse_id }]
          else []

/-- `ORDER BY i.current_stock ASC, avg_sales.daily_avg DESC` under SQLite:
NULL is smaller than every value, so in the descending key it comes last. -/
def reorderLe (a b : SuggRow) : Bool :=
  if a.current_stock = b.current_stock then
    match a.daily_avg, b.daily_avg with
    | none, none => true
    | none, some _ => false
    | some _, none => true
    | some x, some y => decide (y ≤ x)
  else decide (a.current_stock ≤ b.current_stock)

/-- One dictionary of the response body (lines 285–295). -/
structure Suggestion where
  product_id : String
  sku : String
  product_name : String
  current_stock : Int
  warehouse : String
  supplier : String
  supplier_email : String
  suggested_order_quantity : Int
  default_reorder_quantity : Int
deriving DecidableEq

/-- The endpoint: order the query rows and project them onto the response
dictionaries. -/
def get_reorder_suggestions (st : Store) (companyId : String) (today : Int) :
    List Suggestion :=
  (sortBy reorderLe (reorderRows st companyId today)).map fun r =>
    { product_id := r.id
      sku := r.sku
      product_name := r.name
      current_stock := r.current_stock
      warehouse := r.warehouse_name
      supplier := r.supplier_name
      supplier_email := r.supplier_email
      suggested_order_quantity := r.suggested_quantity
      default_reorder_quantity := r.reorder_quantity }

/-- The velocity the claim describes (spec glossary: average units sold per
*active sales day* in the window): group the window transactions by sale
day, sum each day, average over the days — the computation the alert query
performs, which the reorder query does not. -/
def perActiveDayAvg (st : Store) (today : Int) (pid wid : String) :
    Option ℚ :=
  let txns := st.sales_transactions.filter fun t =>
    decide (t.product_id = pid ∧ t.warehouse_id = wid ∧ today - 30 ≤ t.sale_date)
  let days := (txns.map fun t => t.sale_date).dedup
  if days.isEmpty then none
  else
    some ((days.map fun d =>
      ((txns.filter fun t => decide (t.sale_date = d)).map
        fun t => (t.quantity_sold : ℚ)).sum).sum / (days.length : ℚ))

/-- C7 (amended): every reorder-suggestion row computes
`suggested_quantity` from the per-transaction mean of `quantity_sold` over
the trailing 30 days — `floor(mean × 30)` when that mean is defined and
positive, the fallback `reorder_quantity` otherwise. -/
theorem suggested_quantity_per_transaction (st : Store) (cid : String)
    (today : Int) (r : SuggRow) (hr : r ∈ reorderRows st cid today) :
    r.suggested_quantity =
      (match dailyAvg st today r.id r.warehouse_id with
       | some v => if 0 < v then ⌊v * 30⌋ else r.reorder_quantity
       | none => r.reorder_quantity) := by
  unfold reorderRows at hr
  simp only [List.mem_flatMap] at hr
  obtain ⟨p, hp, i, hi, w, hw, s, hs, hr⟩ := hr
  split at hr
  · rw [List.mem_singleton] at hr
    subst hr
    show (match dailyAvg st today p.id i.warehouse_id with
          | some v => if 0 < v then truncToInt (v * 30) else p.reorder_quantity
          | none => p.reorder_quantity) =
        (match dailyAvg st today p.id i.warehouse_id with
         | some v => if 0 < v then ⌊v * 30⌋ else p.reorder_quantity
         | none => p.reorder_quantity)
    cases hd : dailyAvg st today p.id i.warehouse_id with
    | none => rfl
    | some v =>
        show (if 0 < v then truncToInt (v * 30) else p.reorder_quantity)
            = (if 0 < v then ⌊v * 30⌋ else p.reorder_quantity)
        by_cases hv : 0 < v
        · rw [if_pos hv, if_pos hv,
            truncToInt_of_nonneg _ (mul_nonneg hv.le (by norm_num))]
        · rw [if_neg hv, if_neg hv]
  · exact absurd hr (List.not_mem_nil r)

/-- A product below threshold with an active supplier in company c. -/
def prodR : Product :=
  { id := "p1"
    sku := "SKU1"
    name := "Prod"
    reorder_quantity := 50
    low_stock_threshold := 10
    supplier_id := some "s1"
    is_active := true
    company_id := "c" }

/-- A store with two same-day sales of 3 and 5 units: the per-active-day
velocity is 8, the per-transaction mean is 4. -/
def S7 : Store :=
  { products := [prodR]
    inventory := [{ product_id := "p1", warehouse_id := "w1", current_stock := 5 }]
    warehouses := [{ id := "w1", name := "Wh", is_active := true }]
    suppliers := [{ id := "s1", name := "Sup", email := "sup@x", is_active := true }]
    sales_transactions :=
      [{ product_id := "p1", warehouse_id := "w1", sale_date := 100,
         quantity_sold := 3 },
       { product_id := "p1", warehouse_id := "w1", sale_date := 100,
         quantity_sold := 5 }] }

/-- C7 (counterexample): with two transactions of 3 and 5 units on the
same day, the per-active-day velocity is 8 and the claim predicts
`floor(8 × 30) = 240`, but the query suggests `floor(4 × 30) = 120`
because its `AVG(quantity_sold)` averages over transactions. -/
theorem suggested_quantity_not_per_day :
    ((reorderRows S7 "c" 100).map fun r => r.suggested_quantity) = [120]
    ∧ perActiveDayAvg S7 100 "p1" "w1" = some 8
    ∧ ⌊(8 : ℚ) * 30⌋ = 240
    ∧ (120 : Int) ≠ 240 := by decide

/-- The row the reorder query produces from `S7`. -/
def r7 : SuggRow :=
  { id := "p1"
    sku := "SKU1"
    name := "Prod"
    reorder_quantity := 50
    current_stock := 5
    warehouse_id := "w1"
    warehouse_name := "Wh"
    supplier_name := "Sup"
    supplier_email := "sup@x"
    suggested_quantity := 120
    daily_avg := some 4 }

/-- Witness for the amended C7 at a concrete store and row. -/
theorem suggested_quantity_per_transaction_witness :
    r7 ∈ reorderRows S7 "c" 100 ∧
    r7.suggested_quantity =
      (match dailyAvg S7 100 r7.id r7.warehouse_id with
       | some v => if 0 < v then ⌊v * 30⌋ else r7.reorder_quantity
       | none => r7.reorder_quantity) :=
  ⟨by decide, suggested_quantity_per_transaction S7 "c" 100 r7 (by decide)⟩

/-- `S7` with its only warehouse switched inactive and no sales. -/
def S8 : Store :=
  { S7 with
    warehouses := [{ id := "w1", name := "Wh", is_active := false }]
    sales_transactions := [] }

/-- C8 (counterexample): the reorder query keeps a row whose warehouse is
inactive — its WHERE clause, unlike the alert query, never tests
`w.is_active` — so the claimed warehouse-active selection filter does not
hold. -/
theorem reorder_includes_inactive_warehouse :
    ((reorderRows S8 "c" 100).map fun r => r.warehouse_id) = ["w1"]
    ∧ (∀ w ∈ S8.warehouses, w.is_active = false)
    ∧ reorderRows S8 "c" 100 ≠ [] := by decide

/-- C8 (amended): a row appears in the reorder result only if its product
is in the company and active, its stock is at or below the threshold, and
its linked supplier exists and is active; the warehouse must exist (inner
join) but need not be active. -/
theorem reorder_selection_filters (st : Store) (cid : String) (today : Int)
    (r : SuggRow) (hr : r ∈ reorderRows st cid today) :
    ∃ p ∈ st.products, ∃ i ∈ st.inventory, ∃ w ∈ st.warehouses,
      ∃ s ∈ st.suppliers,
        r.id = p.id ∧ i.product_id = p.id ∧ i.warehouse_id = w.id ∧
        p.company_id = cid ∧ p.is_active = true ∧
        i.current_stock ≤ p.low_stock_threshold ∧
        p.supplier_id = some s.id ∧ s.is_active = true := by
  unfold reorderRows at hr
  simp only [List.mem_flatMap] at hr
  obtain ⟨p, hp, i, hi, w, hw, s, hs, hr⟩ := hr
  split at hr
  · rename_i hc
    obtain ⟨h1, h2, h3, h4, h5, h6, h7⟩ := hc
    rw [List.mem_singleton] at hr
    subst hr
    exact ⟨p, hp, i, hi, w, hw, s, hs, rfl, h1, h2, h4, h6, h5, h3, h7⟩
  · exact absurd hr (List.not_mem_nil r)

/-- The row the reorder query produces from `S8`. -/
def r8 : SuggRow :=
  { id := "p1"
    sku := "SKU1"
    name := "Prod"
    reorder_quantity := 50
    current_stock := 5
    warehouse_id := "w1"
    warehouse_name := "Wh"
    supplier_name := "Sup"
    supplier_email := "sup@x"
    suggested_quantity := 50
    daily_avg := none }

/-- Witness for the amended C8 at a concrete store and row. -/
theorem reorder_selection_filters_witness :
    r8 ∈ reorderRows S8 "c" 100 ∧
    (∃ p ∈ S8.products, ∃ i ∈ S8.inventory, ∃ w ∈ S8.warehouses,
      ∃ s ∈ S8.suppliers,
        r8.id = p.id ∧ i.product_id = p.id ∧ i.warehouse_id = w.id ∧
        p.company_id = "c" ∧ p.is_active = true ∧
        i.current_stock ≤ p.low_stock_threshold ∧
        p.supplier_id = some s.id ∧ s.is_active = true) :=
  ⟨by decide, reorder_selection_filters S8 "c" 100 r8 (by decide)⟩

end Reorder
